import Mathlib

/-!
Verification of the email-to-task automation pipeline: the orchestrator
(`src/main.py`), the mailbox client (`src/gmail_client.py`), the classifier
(`src/gemini_evaluator.py`) and the task-tracker client (`src/asana_client.py`).

Shallow embedding conventions:
* Python strings are Lean `String`s; the handful of string methods the code
  uses (`lower`, `in`, slicing, `strip`, `replace`) are re-implemented below
  on the underlying character lists.
* Python dicts with a known key set are structures; a key that may be absent
  is an `Option` field.
* Every external network call (Gmail, Gemini, Asana) is an oracle passed in as
  an argument: `.ok` carries the backend's reply, `.error` models a raised
  exception in the client library.  `json.loads` is likewise an oracle
  `String → Option EvalDict` (`none` models `json.JSONDecodeError`).
* A Python exception escaping the orchestrator's per-email loop body is
  modelled with `Except Unit`: `.error ()` means the run aborts at that email.
* The Gemini prompt string is not modelled: it is only ever sent to the
  external completion backend and no behaviour of the program depends on its
  content.
-/

namespace Jarvis

/-! ### Python string primitives -/

/-- Python `str.lower()` (per-character case folding). -/
def pyLower (s : String) : String := ⟨s.data.map Char.toLower⟩

/-- Contiguous-sublist test used to embed Python's `needle in hay` on strings. -/
def isSubList (needle : List Char) : List Char → Bool
  | [] => needle.isEmpty
  | c :: rest => needle.isPrefixOf (c :: rest) || isSubList needle rest

/-- Python `needle in hay` for strings: contiguous substring test. -/
def pyIn (needle hay : String) : Bool := isSubList needle.data hay.data

/-- Python `s[:n]` slicing. -/
def pyTake (s : String) (n : Nat) : String := ⟨s.data.take n⟩

/-- Python `str.strip()`: drop whitespace from both ends. -/
def pyStrip (s : String) : String :=
  ⟨((s.data.dropWhile Char.isWhitespace).reverse.dropWhile Char.isWhitespace).reverse⟩

/-- Left-to-right deletion of every occurrence of `needle`, fuel-indexed so the
recursion is structural (the fuel is the haystack length, which bounds the
number of steps).  Embeds Python's `hay.replace(needle, '')`. -/
def removeAux (needle : List Char) : Nat → List Char → List Char
  | _, [] => []
  | 0, hay => hay
  | fuel + 1, c :: rest =>
    if needle ≠ [] ∧ needle.isPrefixOf (c :: rest) then
      removeAux needle fuel ((c :: rest).drop needle.length)
    else
      c :: removeAux needle fuel rest

/-- Python `hay.replace(needle, '')`. -/
def pyRemove (needle hay : String) : String :=
  ⟨removeAux needle.data hay.data.length hay.data⟩

/-- Truthiness of an optional string (Python: a missing key, `None`, and the
empty string are all falsy). -/
def pyTruthyStr : Option String → Bool
  | some s => s != ""
  | none => false

/-- Truthiness of an optional bool, as in `if evaluation.get('is_actionable'):`
(a missing key is falsy). -/
def pyTruthy : Option Bool → Bool
  | some b => b
  | none => false

/-- Truthiness of an optional list (Python: `None` and `[]` are falsy). -/
def pyTruthyList : Option (List String) → Bool
  | some l => l != []
  | none => false

/-! ### Classifier (`src/gemini_evaluator.py`) -/

/-- `TEAM_MEMBERS`: the static name → Asana-GID roster, in insertion order. -/
def TEAM_MEMBERS : List (String × String) :=
  [("Anna", "1210895765709613"),
   ("Max", "1210895765692974"),
   ("Roger", "1210895765247998")]

/-- `DEFAULT_ASSIGNEE`. -/
def DEFAULT_ASSIGNEE : String := "Roger"

/-- The JSON object decoded from the model's reply.  Every key may be absent:
`json.loads` imposes no shape on a syntactically valid object. -/
structure EvalDict where
  is_actionable : Option Bool := none
  task_name : Option String := none
  task_notes : Option String := none
  assignee : Option String := none

/-- The dict `GeminiEvaluator.evaluate_email` returns to the orchestrator.
`assignee` and `assignee_gid` are always set by the code before returning;
the other three keys come from the decoded JSON and may be absent. -/
structure GeminiResult where
  is_actionable : Option Bool
  task_name : Option String
  task_notes : Option String
  assignee : String
  assignee_gid : String
  error : Option String

/-- The code-fence cleanup in `_parse_response`:
`response_text.strip().replace('```json', '').replace('```', '').strip()`. -/
def cleanedOf (response_text : String) : String :=
  pyStrip (pyRemove "```" (pyRemove "```json" (pyStrip response_text)))

/-- `GeminiEvaluator._parse_response`: decode the cleaned reply; on decode
failure return the safe-default dict. -/
def parse_response (decoder : String → Option EvalDict) (response_text : String) : EvalDict :=
  match decoder (cleanedOf response_text) with
  | some d => d
  | none =>
    { is_actionable := some false, task_name := some "",
      task_notes := some "", assignee := some DEFAULT_ASSIGNEE }

/-- The `assignee_name` local of `evaluate_email`: the decoded assignee,
defaulted when absent, then clamped to the roster
(`if assignee_name not in TEAM_MEMBERS: assignee_name = DEFAULT_ASSIGNEE`). -/
def resolved_assignee (d : EvalDict) : String :=
  let name0 := d.assignee.getD DEFAULT_ASSIGNEE
  if (TEAM_MEMBERS.lookup name0).isSome then name0 else DEFAULT_ASSIGNEE

/-- `GeminiEvaluator.evaluate_email`.  `backend` is the outcome of
`self.model.generate_content(prompt).text`: `.ok` the reply text, `.error` an
exception raised by the call (caught by the code's `except` block). -/
def evaluate_email (decoder : String → Option EvalDict)
    (backend : Except String String) : GeminiResult :=
  match backend with
  | .error e =>
    { is_actionable := some false, task_name := some "", task_notes := some "",
      assignee := DEFAULT_ASSIGNEE,
      assignee_gid := (TEAM_MEMBERS.lookup DEFAULT_ASSIGNEE).getD "",
      error := some e }
  | .ok text =>
    let result := parse_response decoder text
    { is_actionable := result.is_actionable, task_name := result.task_name,
      task_notes := result.task_notes, assignee := resolved_assignee result,
      assignee_gid := (TEAM_MEMBERS.lookup (resolved_assignee result)).getD "",
      error := none }

/-! ### Mailbox client (`src/gmail_client.py`) -/

/-- A Gmail message payload: decoded `body.data` text (absent key and
key-present-but-empty are distinguished from each other via `none` /
`some ""`), the `mimeType`, and the list of sub-parts (empty when the
`parts` key is absent). -/
inductive Payload where
  | mk (data : Option String) (mimeType : String) (parts : List Payload)

/-- Decoded `body.data` of a payload. -/
def Payload.data : Payload → Option String
  | .mk d _ _ => d

/-- `mimeType` of a payload. -/
def Payload.mimeType : Payload → String
  | .mk _ m _ => m

/-- Sub-parts of a payload. -/
def Payload.parts : Payload → List Payload
  | .mk _ _ ps => ps

/-- The marker `_extract_body` appends when it truncates. -/
def TRUNCATION_MARKER : String := "...[truncated]"

/-- The tail of `_extract_body`: `if len(body) > 3000: body = body[:3000] +
"...[truncated]"`. -/
def truncate (body : String) : String :=
  if 3000 < body.data.length then pyTake body 3000 ++ TRUNCATION_MARKER else body

mutual
/-- `GmailClient._extract_body`: prefer a truthy direct `body.data`; otherwise
scan the parts; always truncate the result. -/
def extract_body : Payload → String
  | .mk data _ parts =>
    truncate (if pyTruthyStr data then data.getD "" else scan_parts parts)
/-- The `for part in payload['parts']` loop of `_extract_body`: a `text/plain`
part whose `body` dict has a `data` key wins immediately (`break`); a
`multipart/alternative` part is searched recursively and wins if the recursive
result is non-empty; any other part is passed over. -/
def scan_parts : List Payload → String
  | [] => ""
  | p :: rest =>
    if p.mimeType = "text/plain" then
      match p.data with
      | some d => d
      | none => scan_parts rest
    else if p.mimeType = "multipart/alternative" then
      let b := extract_body p
      if b = "" then scan_parts rest else b
    else scan_parts rest
end

mutual
/-- Body-extraction policy as the spec words it: "prefer a direct plain-text
body; otherwise recursively search multipart content for a `text/plain` leaf,
preferring the first found; if content is nested under an 'alternative'
wrapper, descend into it before falling back to other parts."  Stated without
the (separately specified) truncation step. -/
def spec_extract : Payload → String
  | .mk data _ parts =>
    if pyTruthyStr data then data.getD "" else spec_scan parts
/-- Spec-side search over the parts: the first `text/plain` leaf carrying body
data is returned; an "alternative" wrapper is descended into, and only when it
yields nothing does the search fall back to the remaining parts. -/
def spec_scan : List Payload → String
  | [] => ""
  | p :: rest =>
    if p.mimeType = "text/plain" ∧ p.data.isSome then p.data.getD ""
    else if p.mimeType = "multipart/alternative" then
      let inner := spec_extract p
      if inner = "" then spec_scan rest else inner
    else spec_scan rest
end

/-- `GmailClient.mark_as_read`: the Gmail `modify` call either succeeds
(`.ok`) or raises (`.error`); the exception is caught and `False` returned. -/
def mark_as_read (backend : Except String Unit) : Bool :=
  match backend with
  | .ok _ => true
  | .error _ => false

/-! ### Task-tracker client (`src/asana_client.py`) -/

/-- The `task_data` dict assembled by `AsanaClient.create_task`. -/
structure TaskData where
  name : String
  notes : String
  projects : List String
  assignee : Option String
  followers : Option (List String)

/-- The Asana API's reply object; each field defaults to `''` when absent
(`getattr(result, ..., '')` / `result.get(..., '')`). -/
structure ApiTask where
  gid : Option String
  name : Option String
  permalink_url : Option String

/-- The dict `create_task` returns.  On failure only `success` and `error`
are present. -/
structure TaskResult where
  success : Bool
  gid : Option String
  permalink_url : Option String
  name : Option String
  error : Option String

/-- Assembly of `task_data`: `assignee` and `followers` are attached only when
the corresponding argument is truthy. -/
def build_task_data (project_gid name notes : String) (assignee_gid : Option String)
    (follower_gids : Option (List String)) : TaskData :=
  { name := name, notes := notes, projects := [project_gid],
    assignee := if pyTruthyStr assignee_gid then assignee_gid else none,
    followers := if pyTruthyList follower_gids then follower_gids else none }

/-- `AsanaClient.create_task`.  `backend` is the outcome of
`self.tasks_api.create_task(body, opts)` on the assembled `task_data`:
`.ok` the reply object, `.error` a raised `ApiException` or other exception
(both `except` arms of the code behave identically). -/
def create_task (project_gid name notes : String) (assignee_gid : Option String)
    (follower_gids : Option (List String))
    (backend : TaskData → Except String ApiTask) : TaskResult :=
  match backend (build_task_data project_gid name notes assignee_gid follower_gids) with
  | .ok r =>
    { success := true, gid := some (r.gid.getD ""),
      permalink_url := some (r.permalink_url.getD ""),
      name := some (r.name.getD ""), error := none }
  | .error e =>
    { success := false, gid := none, permalink_url := none, name := none,
      error := some e }

/-! ### Orchestrator (`src/main.py`) -/

/-- `PRIORITY_DOMAINS`. -/
def PRIORITY_DOMAINS : List String := ["businessanywhere.io"]

/-- `is_priority_sender`: some priority domain occurs as a substring of the
lower-cased sender. -/
def is_priority_sender (sender : String) : Bool :=
  PRIORITY_DOMAINS.any (fun domain => pyIn domain (pyLower sender))

/-- `unsubscribe_patterns` from `has_unsubscribe_link`. -/
def unsubscribe_patterns : List String :=
  ["unsubscribe", "opt-out", "opt out", "remove me", "manage preferences",
   "email preferences", "subscription preferences", "click here to stop",
   "no longer wish to receive"]

/-- `has_unsubscribe_link`: falsy bodies are not marketing; otherwise some
fixed phrase occurs as a substring of the lower-cased body. -/
def has_unsubscribe_link (body : String) : Bool :=
  if body = "" then false
  else unsubscribe_patterns.any (fun pattern => pyIn pattern (pyLower body))

/-- One fetched email, as the dict built by `GmailClient._get_email_details`.
That dict never carries a `date` key, but the orchestrator reads it with
`email.get('date', 'Unknown')`, so the field is modelled as optional. -/
structure Email where
  id : String
  subject : String
  sender : String
  body : String
  snippet : String
  date : Option String

/-- `email['body'] or email['snippet']`: the body, with the snippet
substituted when the body is the empty string. -/
def emailContent (e : Email) : String :=
  if e.body = "" then e.snippet else e.body

/-- The arguments of one `asana.create_task(...)` call made by the
orchestrator. -/
structure TaskCall where
  name : String
  notes : String
  assignee_gid : Option String
  follower_gids : Option (List String)

/-- Observable effects of processing one email in the `main` loop. -/
structure StepResult where
  classifierCalled : Bool
  classifierBody : Option String
  taskCalls : List TaskCall
  created : Nat
  skipped : Nat
  markReadCalls : Nat

/-- The notes body assembled on the priority-sender branch of `main`. -/
def priority_notes (e : Email) : String :=
  "From: " ++ e.sender ++ "\nDate: " ++ e.date.getD "Unknown" ++
  "\n\nPriority email from businessanywhere.io - please review and take action as needed." ++
  "\n\n---\nOriginal subject: " ++ e.subject

/-- The notes body assembled on the classified-actionable branch of `main`. -/
def classified_notes (e : Email) (task_notes : String) : String :=
  "From: " ++ e.sender ++ "\nDate: " ++ e.date.getD "Unknown" ++
  "\n\n" ++ task_notes ++ "\n\n---\nOriginal subject: " ++ e.subject

/-- The body of `for i, email in enumerate(emails, 1):` in `main`, for one
email.  `ev` is what `gemini.evaluate_email` returned for this email and
`taskOk` whether the `asana.create_task` call (if any) reports success.
`.error ()` models an uncaught Python exception aborting the run: the
actionable branch reads `evaluation['task_notes']` and `evaluation['task_name']`
by subscript, which raises `KeyError` when the decoded JSON lacked the key. -/
def processEmail (e : Email) (ev : GeminiResult) (taskOk : Bool) :
    Except Unit StepResult :=
  if has_unsubscribe_link (emailContent e) then
    .ok { classifierCalled := false, classifierBody := none, taskCalls := [],
          created := 0, skipped := 1, markReadCalls := 1 }
  else if is_priority_sender e.sender then
    let call : TaskCall :=
      { name := "[Priority] " ++ pyTake e.subject 50, notes := priority_notes e,
        assignee_gid := none, follower_gids := some (TEAM_MEMBERS.map Prod.snd) }
    .ok { classifierCalled := false, classifierBody := none, taskCalls := [call],
          created := if taskOk then 1 else 0, skipped := 0, markReadCalls := 1 }
  else
    if pyTruthy ev.is_actionable then
      match ev.task_notes with
      | none => .error ()
      | some tn =>
        match ev.task_name with
        | none => .error ()
        | some nm =>
          let call : TaskCall :=
            { name := nm, notes := classified_notes e tn,
              assignee_gid := some ev.assignee_gid, follower_gids := none }
          .ok { classifierCalled := true, classifierBody := some (emailContent e),
                taskCalls := [call], created := if taskOk then 1 else 0,
                skipped := 0, markReadCalls := 1 }
    else
      .ok { classifierCalled := true, classifierBody := some (emailContent e),
            taskCalls := [], created := 0, skipped := 1, markReadCalls := 1 }

/-- The whole `main` loop over the fetched batch, accumulating the
`tasks_created` and `emails_skipped` counters that the summary prints.
Each list entry carries the email together with that email's classifier
outcome and task-creation outcome.  An exception in any iteration aborts the
run (`.error ()`): the summary is then never printed. -/
def runBatch : List (Email × GeminiResult × Bool) → Except Unit (Nat × Nat)
  | [] => .ok (0, 0)
  | (e, ev, taskOk) :: rest =>
    match processEmail e ev taskOk with
    | .error u => .error u
    | .ok r =>
      match runBatch rest with
      | .error u => .error u
      | .ok (c, s) => .ok (r.created + c, r.skipped + s)

/-- A 3001-character body, used to exercise the truncation branch. -/
def long_body : String := ⟨List.replicate 3001 'a'⟩

/-! ### Concrete fixtures used in witnesses and counterexamples -/

/-- A classifier result whose optional fields are all absent. -/
def ev_stub : GeminiResult := ⟨none, none, none, "Roger", "1210895765247998", none⟩

/-- A marketing email: the body contains an unsubscribe phrase. -/
def email_marketing : Email :=
  ⟨"m5", "Sale", "news@shop.example",
   "Big sale! Click here to UNSUBSCRIBE anytime.", "", none⟩

/-- A priority-domain sender whose body contains an unsubscribe phrase. -/
def email_priority_unsub : Email :=
  ⟨"m1", "Weekly digest", "ceo@businessanywhere.io",
   "To unsubscribe from this digest click here.", "", none⟩

/-- A priority-domain sender with an ordinary body. -/
def email_priority : Email :=
  ⟨"m2", "Quarterly report", "ops@businessanywhere.io",
   "Please review the report.", "", none⟩

/-- An ordinary (non-priority, non-marketing) email. -/
def email_plain : Email :=
  ⟨"m3", "Server down", "client@example.net",
   "The server is down, please investigate.", "", none⟩

/-- An email whose extracted body is empty but whose snippet is not. -/
def email_empty_body : Email :=
  ⟨"m4", "Ping", "friend@example.net", "", "Are you around tomorrow?", none⟩

/-- A syntactically valid Gemini reply that omits `task_name` and
`task_notes`. -/
def gemini_reply_missing_fields : String :=
  "\x7b\"is_actionable\": true, \"assignee\": \"Max\"\x7d"

/-- `json.loads` restricted to `gemini_reply_missing_fields`: on that exact
text it returns the object with only the two keys present (standard JSON
decoding); elsewhere it is left unspecified (decode failure). -/
def decoder_missing_fields : String → Option EvalDict :=
  fun s =>
    if s = gemini_reply_missing_fields then some ⟨some true, none, none, some "Max"⟩
    else none

/-- The evaluation `evaluate_email` produces from
`gemini_reply_missing_fields`: actionable, assignee resolved to Max, but no
`task_name`/`task_notes` keys. -/
def ev_missing_fields : GeminiResult :=
  ⟨some true, none, none, "Max", "1210895765692974", none⟩

/-! ### Helper lemmas -/

theorem long_body_length : long_body.data.length = 3001 := by
  show (List.replicate 3001 'a').length = 3001
  rw [List.length_replicate]

theorem string_ext {a b : String} (h : a.data = b.data) : a = b := by
  cases a; cases b; exact congrArg String.mk h

theorem data_append (a b : String) : (a ++ b).data = a.data ++ b.data := by
  cases a; cases b; rfl

theorem data_pyTake (s : String) (n : Nat) : (pyTake s n).data = s.data.take n := rfl

theorem marker_length : TRUNCATION_MARKER.data.length = 14 := rfl

theorem truncate_of_le (s : String) (h : s.data.length ≤ 3000) : truncate s = s := by
  unfold truncate
  rw [if_neg (by omega)]

theorem truncate_of_lt (s : String) (h : 3000 < s.data.length) :
    truncate s = pyTake s 3000 ++ TRUNCATION_MARKER := by
  unfold truncate
  rw [if_pos h]

theorem truncate_truncate (s : String) : truncate (truncate s) = truncate s := by
  by_cases h : 3000 < s.data.length
  · rw [truncate_of_lt s h]
    have hdata : (pyTake s 3000 ++ TRUNCATION_MARKER).data
        = s.data.take 3000 ++ TRUNCATION_MARKER.data := by
      rw [data_append, data_pyTake]
    have hlen : (pyTake s 3000 ++ TRUNCATION_MARKER).data.length = 3014 := by
      rw [hdata, List.length_append, List.length_take, marker_length]
      omega
    rw [truncate_of_lt _ (by rw [hlen]; omega)]
    congr 1
    apply string_ext
    rw [data_pyTake, data_pyTake, hdata, List.take_append_eq_append_take,
      List.length_take]
    have h3 : min 3000 s.data.length = 3000 := by omega
    rw [h3, List.take_take]
    simp
  · rw [truncate_of_le s (by omega), truncate_of_le s (by omega)]

theorem truncate_eq_empty (s : String) : truncate s = "" ↔ s = "" := by
  constructor
  · intro h
    by_cases hl : 3000 < s.data.length
    · exfalso
      rw [truncate_of_lt s hl] at h
      have hlen := congrArg (fun t : String => t.data.length) h
      simp only [data_append, List.length_append, data_pyTake, List.length_take,
        marker_length] at hlen
      have h0 : ("" : String).data.length = 0 := rfl
      rw [h0] at hlen
      omega
    · rwa [truncate_of_le s (by omega)] at h
  · intro h; subst h; rfl

theorem lookup_mem {l : List (String × String)} {k v : String}
    (h : l.lookup k = some v) : k ∈ l.map Prod.fst := by
  induction l with
  | nil => simp [List.lookup] at h
  | cons a rest ih =>
    obtain ⟨a1, a2⟩ := a
    rw [List.lookup] at h
    by_cases hk : k == a1
    · simp [beq_iff_eq.mp hk]
    · simp only [hk] at h
      simp [ih h]

/-! ### Claim C4 -/

/-- Claim C4: an extracted body longer than 3000 characters becomes exactly
the 3000-character prefix followed by the truncation marker; a body of 3000
characters or fewer passes through unchanged. -/
theorem c4_truncation (body : String) :
    (3000 < body.data.length →
      truncate body = pyTake body 3000 ++ TRUNCATION_MARKER)
    ∧ (body.data.length ≤ 3000 → truncate body = body) :=
  ⟨truncate_of_lt body, truncate_of_le body⟩

/-- Witness for C4: a 3001-character body is truncated, a short body is not. -/
theorem c4_witness :
    (3000 < long_body.data.length
      ∧ truncate long_body = pyTake long_body 3000 ++ TRUNCATION_MARKER)
    ∧ ("hello".data.length ≤ 3000 ∧ truncate "hello" = "hello") :=
  ⟨⟨by rw [long_body_length]; omega,
    (c4_truncation long_body).1 (by rw [long_body_length]; omega)⟩,
   ⟨by decide, (c4_truncation "hello").2 (by decide)⟩⟩

/-! ### Claim C2 -/

/-- Claim C2: when the Gemini call raises, and when the cleaned completion
text fails to decode as JSON, `evaluate_email` returns the safe default
Evaluation — not actionable, empty title and notes, the default assignee with
its roster GID — as an ordinary value (in the model it is total, mirroring
the code's catch-all `except`). -/
theorem c2_classifier_safe_default :
    (∀ (decoder : String → Option EvalDict) (e : String),
      evaluate_email decoder (.error e) =
        { is_actionable := some false, task_name := some "", task_notes := some "",
          assignee := DEFAULT_ASSIGNEE, assignee_gid := "1210895765247998",
          error := some e })
    ∧ (∀ (decoder : String → Option EvalDict) (text : String),
        decoder (cleanedOf text) = none →
        evaluate_email decoder (.ok text) =
          { is_actionable := some false, task_name := some "", task_notes := some "",
            assignee := DEFAULT_ASSIGNEE, assignee_gid := "1210895765247998",
            error := none }) := by
  constructor
  · intro decoder e
    rfl
  · intro decoder text h
    have hp : parse_response decoder text
        = (⟨some false, some "", some "", some DEFAULT_ASSIGNEE⟩ : EvalDict) := by
      unfold parse_response
      rw [h]
    show ({ is_actionable := (parse_response decoder text).is_actionable,
            task_name := (parse_response decoder text).task_name,
            task_notes := (parse_response decoder text).task_notes,
            assignee := resolved_assignee (parse_response decoder text),
            assignee_gid :=
              (TEAM_MEMBERS.lookup (resolved_assignee (parse_response decoder text))).getD "",
            error := none } : GeminiResult) = _
    rw [hp]
    rfl

/-- Witness for C2: a decoder that fails on everything, on a non-JSON reply. -/
theorem c2_witness :
    ((fun _ : String => (none : Option EvalDict)) (cleanedOf "not json") = none)
    ∧ evaluate_email (fun _ => none) (.ok "not json") =
        { is_actionable := some false, task_name := some "", task_notes := some "",
          assignee := DEFAULT_ASSIGNEE, assignee_gid := "1210895765247998",
          error := none } :=
  ⟨rfl, c2_classifier_safe_default.2 (fun _ => none) "not json" rfl⟩

/-! ### Claim C3 -/

theorem resolved_isSome (d : EvalDict) :
    (TEAM_MEMBERS.lookup (resolved_assignee d)).isSome := by
  unfold resolved_assignee
  by_cases h : (TEAM_MEMBERS.lookup (d.assignee.getD DEFAULT_ASSIGNEE)).isSome
  · simp [h]
  · simp only [h, if_false, Bool.false_eq_true, if_neg]
    rfl

theorem eval_assignee_lookup (decoder : String → Option EvalDict)
    (backend : Except String String) :
    TEAM_MEMBERS.lookup (evaluate_email decoder backend).assignee
      = some (evaluate_email decoder backend).assignee_gid := by
  cases backend with
  | error e => rfl
  | ok text =>
    show TEAM_MEMBERS.lookup (resolved_assignee (parse_response decoder text))
      = some ((TEAM_MEMBERS.lookup (resolved_assignee (parse_response decoder text))).getD "")
    obtain ⟨g, hg⟩ :=
      Option.isSome_iff_exists.mp (resolved_isSome (parse_response decoder text))
    rw [hg]
    rfl

/-- Claim C3: the classifier's returned assignee is always one of the roster
names, its `assignee_gid` is exactly the roster mapping's identifier for that
name, and a decoded assignee outside the roster is replaced by the default
member. -/
theorem c3_assignee_roster :
    (∀ (decoder : String → Option EvalDict) (backend : Except String String),
      TEAM_MEMBERS.lookup (evaluate_email decoder backend).assignee
        = some (evaluate_email decoder backend).assignee_gid)
    ∧ (∀ (decoder : String → Option EvalDict) (backend : Except String String),
      (evaluate_email decoder backend).assignee ∈ TEAM_MEMBERS.map Prod.fst)
    ∧ (∀ (decoder : String → Option EvalDict) (text : String) (d : EvalDict) (a : String),
      decoder (cleanedOf text) = some d → d.assignee = some a →
      TEAM_MEMBERS.lookup a = none →
      (evaluate_email decoder (.ok text)).assignee = DEFAULT_ASSIGNEE) := by
  refine ⟨eval_assignee_lookup, ?_, ?_⟩
  · intro decoder backend
    exact lookup_mem (eval_assignee_lookup decoder backend)
  · intro decoder text d a hdec ha hnone
    have hp : parse_response decoder text = d := by
      unfold parse_response
      rw [hdec]
    show resolved_assignee (parse_response decoder text) = DEFAULT_ASSIGNEE
    rw [hp]
    unfold resolved_assignee
    rw [ha]
    simp [hnone]

/-- Witness for C3: a decoded assignee "Bob" outside the roster is replaced
by the default member. -/
theorem c3_witness :
    ((fun _ : String => some (⟨some true, some "t", some "n", some "Bob"⟩ : EvalDict))
        (cleanedOf "x")
      = some (⟨some true, some "t", some "n", some "Bob"⟩ : EvalDict))
    ∧ TEAM_MEMBERS.lookup "Bob" = none
    ∧ (evaluate_email (fun _ => some (⟨some true, some "t", some "n", some "Bob"⟩ : EvalDict))
        (.ok "x")).assignee = DEFAULT_ASSIGNEE :=
  ⟨rfl, rfl,
   c3_assignee_roster.2.2 _ "x" _ "Bob" rfl rfl rfl⟩

/-! ### Claim C6 -/

/-- Claim C6: `create_task` never raises — a backend error (API exception or
transport fault) becomes a `TaskResult` with `success := false` and the error
string, and a backend success becomes `success := true` carrying the created
task's identifier, name and permalink. -/
theorem c6_create_task_total :
    (∀ (project_gid nm notes : String) (assignee_gid : Option String)
        (follower_gids : Option (List String))
        (backend : TaskData → Except String ApiTask) (e : String),
      backend (build_task_data project_gid nm notes assignee_gid follower_gids)
          = .error e →
      create_task project_gid nm notes assignee_gid follower_gids backend =
        { success := false, gid := none, permalink_url := none, name := none,
          error := some e })
    ∧ (∀ (project_gid nm notes : String) (assignee_gid : Option String)
        (follower_gids : Option (List String))
        (backend : TaskData → Except String ApiTask) (r : ApiTask),
      backend (build_task_data project_gid nm notes assignee_gid follower_gids)
          = .ok r →
      create_task project_gid nm notes assignee_gid follower_gids backend =
        { success := true, gid := some (r.gid.getD ""),
          permalink_url := some (r.permalink_url.getD ""),
          name := some (r.name.getD ""), error := none }) := by
  constructor
  · intro pg nm notes ag fg backend e h
    unfold create_task
    rw [h]
  · intro pg nm notes ag fg backend r h
    unfold create_task
    rw [h]

/-- Witness for C6 at a failing and at a succeeding backend. -/
theorem c6_witness :
    ((fun _ : TaskData => (Except.error "boom" : Except String ApiTask))
        (build_task_data "p" "t" "d" none none) = .error "boom"
      ∧ create_task "p" "t" "d" none none (fun _ => .error "boom") =
          { success := false, gid := none, permalink_url := none, name := none,
            error := some "boom" })
    ∧ ((fun _ : TaskData =>
          (Except.ok (⟨some "g1", some "T", some "u"⟩ : ApiTask) : Except String ApiTask))
        (build_task_data "p" "t" "d" none none)
          = .ok (⟨some "g1", some "T", some "u"⟩ : ApiTask)
      ∧ create_task "p" "t" "d" none none
          (fun _ => .ok (⟨some "g1", some "T", some "u"⟩ : ApiTask)) =
          { success := true, gid := some "g1", permalink_url := some "u",
            name := some "T", error := none }) :=
  ⟨⟨rfl, c6_create_task_total.1 "p" "t" "d" none none (fun _ => .error "boom") "boom" rfl⟩,
   ⟨rfl, c6_create_task_total.2 "p" "t" "d" none none
      (fun _ => .ok (⟨some "g1", some "T", some "u"⟩ : ApiTask)) _ rfl⟩⟩

/-! ### Claim C5 -/

/-- Claim C5: an email whose body contains one of the unsubscribe phrases
(case-insensitive substring) is marked read exactly once, counted as skipped,
produces no task-creation call, and the classifier is never invoked. -/
theorem c5_unsubscribe_skip (e : Email) (ev : GeminiResult) (taskOk : Bool)
    (h : has_unsubscribe_link e.body = true) :
    processEmail e ev taskOk =
      .ok { classifierCalled := false, classifierBody := none, taskCalls := [],
            created := 0, skipped := 1, markReadCalls := 1 } := by
  have hne : e.body ≠ "" := by
    intro h0
    rw [h0] at h
    exact absurd h (by decide)
  have hc : emailContent e = e.body := by
    unfold emailContent
    rw [if_neg hne]
  unfold processEmail
  rw [hc, if_pos h]

/-- Witness for C5 at a concrete marketing email (upper-case phrase). -/
theorem c5_witness :
    has_unsubscribe_link email_marketing.body = true
    ∧ processEmail email_marketing ev_stub true =
      .ok { classifierCalled := false, classifierBody := none, taskCalls := [],
            created := 0, skipped := 1, markReadCalls := 1 } :=
  ⟨by decide, c5_unsubscribe_skip email_marketing ev_stub true (by decide)⟩

/-! ### Claim C1 -/

/-- Counterexample to C1 as stated: the unsubscribe filter runs before the
priority-sender check, so a priority-domain email whose body contains
"unsubscribe" is skipped — no task-creation call is made, contradicting
"creates exactly one task … regardless of the email's content". -/
theorem c1_counterexample :
    is_priority_sender email_priority_unsub.sender = true
    ∧ processEmail email_priority_unsub ev_stub true =
      .ok { classifierCalled := false, classifierBody := none, taskCalls := [],
            created := 0, skipped := 1, markReadCalls := 1 } :=
  ⟨rfl, rfl⟩

/-- Claim C1 as amended: for a priority-domain sender whose content does not
contain an unsubscribe phrase, the orchestrator makes exactly one
task-creation call — with every roster identifier as followers — and never
invokes the classifier. -/
theorem c1_priority_task (e : Email) (ev : GeminiResult) (taskOk : Bool)
    (hu : has_unsubscribe_link (emailContent e) = false)
    (hp : is_priority_sender e.sender = true) :
    processEmail e ev taskOk =
      .ok { classifierCalled := false, classifierBody := none,
            taskCalls := [{ name := "[Priority] " ++ pyTake e.subject 50,
                            notes := priority_notes e, assignee_gid := none,
                            follower_gids := some (TEAM_MEMBERS.map Prod.snd) }],
            created := if taskOk then 1 else 0, skipped := 0,
            markReadCalls := 1 } := by
  unfold processEmail
  rw [hu, hp]
  rfl

/-- Witness for C1 (amended) at a concrete priority email whose task creation
succeeds. -/
theorem c1_witness :
    has_unsubscribe_link (emailContent email_priority) = false
    ∧ is_priority_sender email_priority.sender = true
    ∧ processEmail email_priority ev_stub true =
      .ok { classifierCalled := false, classifierBody := none,
            taskCalls := [{ name := "[Priority] " ++ pyTake email_priority.subject 50,
                            notes := priority_notes email_priority, assignee_gid := none,
                            follower_gids := some (TEAM_MEMBERS.map Prod.snd) }],
            created := 1, skipped := 0, markReadCalls := 1 } :=
  ⟨rfl, rfl, c1_priority_task email_priority ev_stub true rfl rfl⟩

/-! ### Claim C7 -/

/-- Claim C7 (code bug): evaluated at the failing input.  The Gemini reply
`gemini_reply_missing_fields` is valid JSON, so the classifier passes it
through with `task_name`/`task_notes` absent (contradicting its own docstring,
which promises both keys); the orchestrator's notes f-string then raises
`KeyError` before `mark_as_read` is ever attempted, aborting the run.  The
last conjunct shows the part of the claim that does hold: a mark-read
transport failure returns `false` rather than raising. -/
theorem c7_keyerror_aborts :
    evaluate_email decoder_missing_fields (.ok gemini_reply_missing_fields)
        = ev_missing_fields
    ∧ processEmail email_plain ev_missing_fields true = .error ()
    ∧ mark_as_read (.error "transport fault") = false :=
  ⟨rfl, rfl, rfl⟩

/-! ### Claim C9 -/

theorem process_counts_le (e : Email) (ev : GeminiResult) (taskOk : Bool)
    (r : StepResult) (h : processEmail e ev taskOk = .ok r) :
    r.created + r.skipped ≤ 1 := by
  unfold processEmail at h
  split at h
  · cases h
    simp
  · split at h
    · cases h
      cases taskOk <;> simp
    · split at h
      · split at h
        · cases h
        · split at h
          · cases h
          · cases h
            cases taskOk <;> simp
      · cases h
        simp

/-- Claim C9: a completed run's counters satisfy
`tasks_created + emails_skipped ≤ processed`; an email whose task-creation
call fails (on either task path) increments neither counter, and a concrete
priority email with a failing tracker yields `0 + 0 < 1`, so the inequality
can be strict. -/
theorem c9_counter_bound :
    (∀ (inputs : List (Email × GeminiResult × Bool)) (c s : Nat),
      runBatch inputs = .ok (c, s) → c + s ≤ inputs.length)
    ∧ (∀ (e : Email) (ev : GeminiResult) (r : StepResult),
      processEmail e ev false = .ok r → r.taskCalls ≠ [] →
      r.created = 0 ∧ r.skipped = 0)
    ∧ runBatch [(email_priority, ev_stub, false)] = .ok (0, 0)
    ∧ (0 : Nat) + 0 < [(email_priority, ev_stub, false)].length := by
  refine ⟨?_, ?_, rfl, by simp⟩
  · intro inputs
    induction inputs with
    | nil =>
      intro c s h
      cases h
      simp
    | cons x rest ih =>
      obtain ⟨e, ev, tOk⟩ := x
      intro c s h
      unfold runBatch at h
      cases hpe : processEmail e ev tOk with
      | error u =>
        rw [hpe] at h
        cases h
      | ok r =>
        rw [hpe] at h
        cases hrb : runBatch rest with
        | error u =>
          rw [hrb] at h
          cases h
        | ok p =>
          obtain ⟨c', s'⟩ := p
          rw [hrb] at h
          cases h
          have h1 := process_counts_le e ev tOk r hpe
          have h2 := ih c' s' hrb
          simp only [List.length_cons]
          omega
  · intro e ev r h hcalls
    unfold processEmail at h
    split at h
    · cases h
      exact absurd rfl hcalls
    · split at h
      · cases h
        simp
      · split at h
        · split at h
          · cases h
          · split at h
            · cases h
            · cases h
              simp
        · cases h
          exact absurd rfl hcalls

/-- Witness for C9: the bound applied to the concrete one-email run whose
task creation fails. -/
theorem c9_witness :
    runBatch [(email_priority, ev_stub, false)] = .ok (0, 0)
    ∧ (0 : Nat) + 0 ≤ [(email_priority, ev_stub, false)].length :=
  ⟨rfl, c9_counter_bound.1 [(email_priority, ev_stub, false)] 0 0 rfl⟩

/-! ### Claim C8 -/

theorem scan_aligned :
    ∀ (n : Nat) (l : List Payload), sizeOf l ≤ n →
      truncate (scan_parts l) = truncate (spec_scan l)
      ∧ (scan_parts l = "" ↔ spec_scan l = "") := by
  intro n
  induction n with
  | zero =>
    intro l hl
    exfalso
    cases l with
    | nil => simp at hl
    | cons p rest =>
      simp [List.cons.sizeOf_spec] at hl
  | succ n ih =>
    intro l hl
    cases l with
    | nil => exact ⟨rfl, Iff.rfl⟩
    | cons p rest =>
      obtain ⟨d, m, ps⟩ := p
      have hrest : sizeOf rest ≤ n := by
        simp [List.cons.sizeOf_spec, Payload.mk.sizeOf_spec] at hl
        omega
      have hps : sizeOf ps ≤ n := by
        simp [List.cons.sizeOf_spec, Payload.mk.sizeOf_spec] at hl
        omega
      simp only [scan_parts, spec_scan, Payload.mimeType, Payload.data]
      by_cases hm : m = "text/plain"
      · cases d with
        | some dd =>
          simp [hm]
        | none =>
          have hff : ¬(m = "text/plain" ∧ (none : Option String).isSome = true) := by
            simp
          rw [if_pos hm, if_neg hff, if_neg (by rw [hm]; decide)]
          exact ih rest hrest
      · have hff : ¬(m = "text/plain" ∧ d.isSome = true) := by
          intro hc
          exact hm hc.1
        rw [if_neg hm, if_neg hff]
        by_cases ha : m = "multipart/alternative"
        · rw [if_pos ha, if_pos ha]
          simp only [extract_body, spec_extract, Payload.data]
          have hXY :
              truncate (if pyTruthyStr d then d.getD "" else scan_parts ps)
                = truncate (if pyTruthyStr d then d.getD "" else spec_scan ps)
              ∧ ((if pyTruthyStr d then d.getD "" else scan_parts ps) = ""
                ↔ (if pyTruthyStr d then d.getD "" else spec_scan ps) = "") := by
            by_cases hd : pyTruthyStr d
            · rw [if_pos hd, if_pos hd]
              exact ⟨rfl, Iff.rfl⟩
            · rw [if_neg hd, if_neg hd]
              exact ih ps hps
          by_cases hY : (if pyTruthyStr d then d.getD "" else spec_scan ps) = ""
          · have hX : (if pyTruthyStr d then d.getD "" else scan_parts ps) = "" :=
              hXY.2.mpr hY
            have hb : truncate (if pyTruthyStr d then d.getD "" else scan_parts ps) = "" :=
              (truncate_eq_empty _).mpr hX
            rw [if_pos hb, if_pos hY]
            exact ih rest hrest
          · have hX : (if pyTruthyStr d then d.getD "" else scan_parts ps) ≠ "" :=
              fun h => hY (hXY.2.mp h)
            have hb : truncate (if pyTruthyStr d then d.getD "" else scan_parts ps) ≠ "" :=
              fun h => hX ((truncate_eq_empty _).mp h)
            rw [if_neg hb, if_neg hY]
            exact ⟨by rw [truncate_truncate]; exact hXY.1,
              ⟨fun h => absurd h hb, fun h => absurd h hY⟩⟩
        · rw [if_neg ha, if_neg ha]
          exact ih rest hrest

/-- Claim C8: `_extract_body` computes exactly the spec-side search — a
truthy direct plain-text body is preferred; otherwise the parts are scanned
for the first `text/plain` leaf carrying data, descending into a
`multipart/alternative` wrapper and falling back to the remaining parts only
when it yields nothing — followed by the truncation step. -/
theorem c8_extract_refines_spec (p : Payload) :
    extract_body p = truncate (spec_extract p) := by
  obtain ⟨d, m, ps⟩ := p
  simp only [extract_body, spec_extract]
  by_cases hd : pyTruthyStr d
  · rw [if_pos hd, if_pos hd]
  · rw [if_neg hd, if_neg hd]
    exact (scan_aligned (sizeOf ps) ps le_rfl).1

/-! ### Claim C10 -/

/-- Claim C10: when the extracted body is empty the provider snippet is
substituted — the unsubscribe filter examines it, and the classifier (when
invoked) receives it as the body; with body and snippet both empty the
filter returns false. -/
theorem c10_snippet_fallback :
    (∀ e : Email, e.body = "" → emailContent e = e.snippet)
    ∧ (∀ (e : Email) (ev : GeminiResult) (taskOk : Bool) (r : StepResult),
      e.body = "" → processEmail e ev taskOk = .ok r → r.classifierCalled = true →
      r.classifierBody = some e.snippet)
    ∧ has_unsubscribe_link "" = false
    ∧ (∀ e : Email, e.body = "" → e.snippet = "" →
      has_unsubscribe_link (emailContent e) = false) := by
  have hsub : ∀ e : Email, e.body = "" → emailContent e = e.snippet := by
    intro e h
    unfold emailContent
    rw [if_pos h]
  refine ⟨hsub, ?_, by decide, ?_⟩
  · intro e ev taskOk r hb h hcc
    unfold processEmail at h
    split at h
    · cases h
      cases hcc
    · split at h
      · cases h
        cases hcc
      · split at h
        · split at h
          · cases h
          · split at h
            · cases h
            · cases h
              rw [hsub e hb]
        · cases h
          rw [hsub e hb]
  · intro e hb hs
    rw [hsub e hb, hs]
    decide

/-- Witness for C10 at a concrete email with an empty body. -/
theorem c10_witness :
    email_empty_body.body = ""
    ∧ emailContent email_empty_body = email_empty_body.snippet :=
  ⟨rfl, c10_snippet_fallback.1 email_empty_body rfl⟩

end Jarvis
